import Mathlib

/-!
# Verification of the VisualScript node user-data payload subsystem

Shallow embedding of `Code/EnginePlugins/VisualScriptPlugin/Runtime/VisualScriptNodeUserData.h`:
the payload variants (`NodeUserData_Type`, `NodeUserData_TypeAndProperty`,
`NodeUserData_Comparison`, `NodeUserData_StartCoroutine`), their serialize /
deserialize / to-string operations, and the per-node-type dispatch table
`s_TypeToUserDataContexts` with its accessor `GetUserDataContext`.

Modelling conventions:
* The byte stream abstraction (`ezStreamReader` / `ezStreamWriter`) is an external
  collaborator; it is embedded at the granularity of its primitive operations — a
  stream is a list of primitive items (length-prefixed string or fixed-width
  scalar), reads never fail (as in the C++ stream API, a read past the end or of
  mismatched framing yields a default value).
* `ezRTTI` type handles and `ezAbstractProperty` handles are embedded as the
  records they point to; `ezRTTI::FindTypeByName` becomes a lookup in an explicit
  registry list.
* `ezResult` plus the `ezLog::Error` diagnostic emitted on the failure paths are
  embedded together as an `Except` whose error constructor records the diagnostic
  (which name failed to resolve, and the member-context flag the source computes
  from `std::is_same` — see `ReadProperty`).
* Struct sizes/alignments (`sizeof` / `EZ_ALIGNMENT_OF`) are computed by an
  explicit C-layout function parameterised over the native pointer width, with the
  `EZ_PLATFORM_32BIT` padding fields exactly as in the source.
-/

/-- Result code of the engine: success or failure. -/
inductive ezResult where
  | EZ_SUCCESS
  | EZ_FAILURE
deriving DecidableEq, Repr

/-- A primitive item of the byte stream: a length-prefixed string or a
fixed-width scalar, per the stream's primitive conventions. -/
inductive StreamItem where
  | str (s : String)
  | scalar (n : Nat)
deriving DecidableEq, Repr

/-- A stream is the ordered list of primitive items written to it. -/
abbrev ezStream := List StreamItem

/-- `ezStreamReader >>` into a string builder: consumes the head string item;
a read of mismatched framing or past the end yields the default (empty) value,
as stream reads in the engine do not fail. -/
def readString : ezStream → String × ezStream
  | .str s :: rest => (s, rest)
  | s => ("", s)

/-- `ezStreamReader >>` into a fixed-width scalar (enum storage): consumes the
head scalar item; a mismatched or exhausted read yields the default value. -/
def readScalar : ezStream → Nat × ezStream
  | .scalar n :: rest => (n, rest)
  | s => (0, s)

/-- An `ezAbstractProperty` (also used for `ezAbstractFunctionProperty`):
the member record a property/function handle points to.  `GetPropertyName`
is the `name` field; `id` distinguishes distinct members that share a name. -/
structure ezAbstractProperty where
  name : String
  id : Nat := 0
deriving DecidableEq, Repr

/-- An `ezRTTI` record: the type record a type handle points to, with its
name (`GetTypeName`), property list (`GetProperties`) and function list
(`GetFunctions`). -/
structure ezRTTI where
  typeName : String
  properties : List ezAbstractProperty := []
  functions : List ezAbstractProperty := []
deriving DecidableEq, Repr

/-- The global type registry queried by `ezRTTI::FindTypeByName`. -/
abbrev TypeRegistry := List ezRTTI

/-- `ezRTTI::FindTypeByName`: resolve a type name against the registry,
`none` when no type is registered under that name. -/
def FindTypeByName (reg : TypeRegistry) (sName : String) : Option ezRTTI :=
  reg.find? (fun t => t.typeName = sName)

/-- The diagnostic recorded by `ezLog::Error` on the deserialize failure paths:
either an unresolved type name, or an unresolved member name.  The flag
carries the value of `std::is_same<T, ezAbstractFunctionProperty>::value`
selecting between the messages `"Function '{}' not found on type '{}'"`
(`true`) and `"Property '{}' not found on type '{}'"` (`false`); at every
instantiation of `ReadProperty` that compiles, `T` is deduced as the pointer
element type of the passed array (`ezAbstractFunctionProperty*` or
`ezAbstractProperty*`, forced by `pProp->GetPropertyName()`), never
`ezAbstractFunctionProperty` itself, so the flag is `false` in both modes. -/
inductive DeserializeError where
  | UnresolvedType (typeName : String)
  | UnresolvedMember (isFunction : Bool) (memberName : String) (typeName : String)
deriving DecidableEq, Repr

/-- The resolved user-data record placed behind a node, one shape per payload
variant of the source. -/
inductive UserData where
  | type (pType : ezRTTI)
  | typeAndProperty (pType : ezRTTI) (pProperty : ezAbstractProperty)
  | comparison (op : Nat)
  | startCoroutine (pType : ezRTTI) (creationMode : Nat)
deriving DecidableEq, Repr

/-! ## Struct layout

`sizeof` / `EZ_ALIGNMENT_OF` of the variant records, computed by the standard
C struct layout rules from an explicit field list, parameterised over the
native pointer width `w` (8 on 64-bit builds, 4 when `EZ_PLATFORM_32BIT`). -/

/-- Round `off` up to the next multiple of `al`. -/
def alignUp (off al : Nat) : Nat := ((off + al - 1) / al) * al

/-- A struct field for layout purposes: its size and required alignment. -/
structure LayoutField where
  size : Nat
  align : Nat
deriving DecidableEq, Repr

/-- Standard C layout: each field at the next offset aligned for it, the
struct aligned and padded to the maximum field alignment. Returns
(sizeof, alignof). -/
def structLayout (fields : List LayoutField) : Nat × Nat :=
  let al := fields.foldl (fun a f => max a f.align) 1
  let sz := fields.foldl (fun off f => alignUp off f.align + f.size) 0
  (alignUp sz al, al)

/-- Field list of `NodeUserData_Type`: one `const ezRTTI*` pointer, plus an
explicit `ezUInt32 m_uiPadding` under `EZ_PLATFORM_32BIT` (w = 4). -/
def fieldsNodeUserData_Type (w : Nat) : List LayoutField :=
  [⟨w, w⟩] ++ (if w = 4 then [⟨4, 4⟩] else [])

/-- `sizeof(NodeUserData_Type)` at pointer width `w`. -/
def sizeofNodeUserData_Type (w : Nat) : Nat := (structLayout (fieldsNodeUserData_Type w)).1

/-- `EZ_ALIGNMENT_OF(NodeUserData_Type)` at pointer width `w`. -/
def alignofNodeUserData_Type (w : Nat) : Nat := (structLayout (fieldsNodeUserData_Type w)).2

/-- Field list of `NodeUserData_TypeAndProperty`: the `NodeUserData_Type` base
subobject, a `const ezAbstractProperty*` pointer, plus an explicit
`ezUInt32 m_uiPadding` under `EZ_PLATFORM_32BIT`. -/
def fieldsNodeUserData_TypeAndProperty (w : Nat) : List LayoutField :=
  [⟨sizeofNodeUserData_Type w, alignofNodeUserData_Type w⟩, ⟨w, w⟩]
    ++ (if w = 4 then [⟨4, 4⟩] else [])

/-- `sizeof(NodeUserData_TypeAndProperty)` at pointer width `w`. -/
def sizeofNodeUserData_TypeAndProperty (w : Nat) : Nat :=
  (structLayout (fieldsNodeUserData_TypeAndProperty w)).1

/-- `EZ_ALIGNMENT_OF(NodeUserData_TypeAndProperty)` at pointer width `w`. -/
def alignofNodeUserData_TypeAndProperty (w : Nat) : Nat :=
  (structLayout (fieldsNodeUserData_TypeAndProperty w)).2

/-- Modelled from the spec: the storage layout of `ezEnum<ezComparisonOperator>`
(the declaration of `ezComparisonOperator` is not under src/); a small
fixed-width scalar field, one byte of storage. -/
def comparisonOperatorField : LayoutField := ⟨1, 1⟩

/-- `sizeof(NodeUserData_Comparison)`: a single `ezEnum<ezComparisonOperator>`. -/
def sizeofNodeUserData_Comparison : Nat := (structLayout [comparisonOperatorField]).1

/-- `EZ_ALIGNMENT_OF(NodeUserData_Comparison)`. -/
def alignofNodeUserData_Comparison : Nat := (structLayout [comparisonOperatorField]).2

/-- Modelled from the spec: the storage layout of
`ezEnum<ezScriptCoroutineCreationMode>` (the declaration of
`ezScriptCoroutineCreationMode` is not under src/).  The source pins the total
record size with the unconditional `static_assert(sizeof(NodeUserData_StartCoroutine) == 16)`
and the spec states the 16-byte size holds irrespective of 32- vs 64-bit
builds, which forces an 8-byte storage slot after the 8-byte base. -/
def creationModeField : LayoutField := ⟨8, 8⟩

/-- Field list of `NodeUserData_StartCoroutine`: the `NodeUserData_Type` base
subobject followed by the `ezEnum<ezScriptCoroutineCreationMode>` member. -/
def fieldsNodeUserData_StartCoroutine (w : Nat) : List LayoutField :=
  [⟨sizeofNodeUserData_Type w, alignofNodeUserData_Type w⟩, creationModeField]

/-- `sizeof(NodeUserData_StartCoroutine)` at pointer width `w`. -/
def sizeofNodeUserData_StartCoroutine (w : Nat) : Nat :=
  (structLayout (fieldsNodeUserData_StartCoroutine w)).1

/-- `EZ_ALIGNMENT_OF(NodeUserData_StartCoroutine)` at pointer width `w`. -/
def alignofNodeUserData_StartCoroutine (w : Nat) : Nat :=
  (structLayout (fieldsNodeUserData_StartCoroutine w)).2

/-- In-memory size of a resolved user-data record at pointer width `w`. -/
def UserData.sizeofRecord (w : Nat) : UserData → Nat
  | .type _ => sizeofNodeUserData_Type w
  | .typeAndProperty _ _ => sizeofNodeUserData_TypeAndProperty w
  | .comparison _ => sizeofNodeUserData_Comparison
  | .startCoroutine _ _ => sizeofNodeUserData_StartCoroutine w

/-- Required alignment of a resolved user-data record at pointer width `w`. -/
def UserData.alignofRecord (w : Nat) : UserData → Nat
  | .type _ => alignofNodeUserData_Type w
  | .typeAndProperty _ _ => alignofNodeUserData_TypeAndProperty w
  | .comparison _ => alignofNodeUserData_Comparison
  | .startCoroutine _ _ => alignofNodeUserData_StartCoroutine w

/-! ## Extension arena and node records -/

/-- The extension arena of a graph: an append-only buffer of resolved
payload records, with the byte cursor (`ezUInt8* inout_pAdditionalData`)
tracked as an offset. -/
structure Arena where
  cursor : Nat := 0
  records : List (Nat × UserData) := []
deriving DecidableEq, Repr

/-- `ezVisualScriptGraphDescription::Node` as far as this subsystem touches it:
the resolved user-data reference set by `SetUserData`. -/
structure Node where
  userData : Option (Nat × UserData) := none
deriving DecidableEq, Repr

/-- Modelled from the spec: `ezVisualScriptGraphDescription::Node::SetUserData`
(declared in `VisualScript.h`, which is not under src/) — extension-arena
placement per spec §4.4: the freshly constructed record is appended at the next
offset satisfying its alignment, the node records the resulting offset, and the
arena cursor advances past the record. -/
def Node.SetUserData (node : Node) (w : Nat) (ud : UserData) (arena : Arena) :
    Node × Arena :=
  let off := alignUp arena.cursor (ud.alignofRecord w)
  ({ node with userData := some (off, ud) },
   { cursor := off + ud.sizeofRecord w, records := arena.records ++ [(off, ud)] })

/-! ## Authoring node description -/

/-- The node type tag.

Modelled from the spec: the declaration of
`ezVisualScriptNodeDescription::Type` is not under src/; the tags are taken
from the per-entry comments of `s_TypeToUserDataContexts`, which names every
declared tag in order, and `Count` is the number of declared tags. -/
inductive NodeType where
  | Invalid
  | EntryCall
  | EntryCall_Coroutine
  | MessageHandler
  | MessageHandler_Coroutine
  | ReflectedFunction
  | InplaceCoroutine
  | GetOwner
  | FirstBuiltin
  | Builtin_Branch
  | Builtin_And
  | Builtin_Or
  | Builtin_Not
  | Builtin_Compare
  | Builtin_IsValid
  | Builtin_Add
  | Builtin_Subtract
  | Builtin_Multiply
  | Builtin_Divide
  | Builtin_ToBool
  | Builtin_ToByte
  | Builtin_ToInt
  | Builtin_ToInt64
  | Builtin_ToFloat
  | Builtin_ToDouble
  | Builtin_ToString
  | Builtin_ToVariant
  | Builtin_Variant_ConvertTo
  | Builtin_MakeArray
  | Builtin_TryGetComponentOfBaseType
  | Builtin_StartCoroutine
  | Builtin_StopCoroutine
  | Builtin_StopAllCoroutines
  | Builtin_WaitForAll
  | Builtin_WaitForAny
  | Builtin_Yield
  | LastBuiltin
deriving DecidableEq, Repr, Fintype

/-- The numeric value of a node type tag (its position in the declaration). -/
def NodeType.toIdx : NodeType → Nat
  | .Invalid => 0
  | .EntryCall => 1
  | .EntryCall_Coroutine => 2
  | .MessageHandler => 3
  | .MessageHandler_Coroutine => 4
  | .ReflectedFunction => 5
  | .InplaceCoroutine => 6
  | .GetOwner => 7
  | .FirstBuiltin => 8
  | .Builtin_Branch => 9
  | .Builtin_And => 10
  | .Builtin_Or => 11
  | .Builtin_Not => 12
  | .Builtin_Compare => 13
  | .Builtin_IsValid => 14
  | .Builtin_Add => 15
  | .Builtin_Subtract => 16
  | .Builtin_Multiply => 17
  | .Builtin_Divide => 18
  | .Builtin_ToBool => 19
  | .Builtin_ToByte => 20
  | .Builtin_ToInt => 21
  | .Builtin_ToInt64 => 22
  | .Builtin_ToFloat => 23
  | .Builtin_ToDouble => 24
  | .Builtin_ToString => 25
  | .Builtin_ToVariant => 26
  | .Builtin_Variant_ConvertTo => 27
  | .Builtin_MakeArray => 28
  | .Builtin_TryGetComponentOfBaseType => 29
  | .Builtin_StartCoroutine => 30
  | .Builtin_StopCoroutine => 31
  | .Builtin_StopAllCoroutines => 32
  | .Builtin_WaitForAll => 33
  | .Builtin_WaitForAny => 34
  | .Builtin_Yield => 35
  | .LastBuiltin => 36

/-- `ezVisualScriptNodeDescription::Type::Count`: the number of declared tags. -/
def NodeTypeCount : Nat := 37

/-- `ezVisualScriptNodeDescription`, as far as this subsystem reads it: the
authoring-time fields consumed by the serialize / to-string operations. -/
structure ezVisualScriptNodeDescription where
  m_Type : NodeType := .Invalid
  m_sTargetTypeName : String := ""
  m_sTargetPropertyName : String := ""
  m_ComparisonOperator : Nat := 0
  m_CoroutineCreationMode : Nat := 0
deriving DecidableEq, Repr

/-! ## Payload variant operations

Each operation is a direct translation of the corresponding static member
function of the source.  Serialize takes the authoring description and the
stream written so far and returns `(ezResult, stream, out_uiSize, out_uiAlignment)`;
deserialize takes the registry, the node, the input stream and the arena and
returns the result (with the `ezLog::Error` diagnostic on failure), the node,
the remaining stream and the arena. -/

namespace NodeUserData_Type

/-- `NodeUserData_Type::Serialize`: writes `nodeDesc.m_sTargetTypeName`,
reports `sizeof` / `EZ_ALIGNMENT_OF` of `NodeUserData_Type`. -/
def Serialize (w : Nat) (nodeDesc : ezVisualScriptNodeDescription)
    (stream : ezStream) : ezResult × ezStream × Nat × Nat :=
  (.EZ_SUCCESS, stream ++ [.str nodeDesc.m_sTargetTypeName],
   sizeofNodeUserData_Type w, alignofNodeUserData_Type w)

/-- `NodeUserData_Type::ReadType`: reads the type name string and resolves it
via `ezRTTI::FindTypeByName`; on failure logs `"Unknown type '{}'"` and
returns `EZ_FAILURE`. -/
def ReadType (reg : TypeRegistry) (stream : ezStream) :
    Except DeserializeError ezRTTI × ezStream :=
  let r := readString stream
  match FindTypeByName reg r.1 with
  | none => (.error (.UnresolvedType r.1), r.2)
  | some pType => (.ok pType, r.2)

/-- `NodeUserData_Type::Deserialize`: reads and resolves the type, then places
the resolved record via `SetUserData`; `EZ_SUCCEED_OR_RETURN` aborts before
placement on failure. -/
def Deserialize (w : Nat) (reg : TypeRegistry) (node : Node)
    (stream : ezStream) (arena : Arena) :
    Except DeserializeError Unit × Node × ezStream × Arena :=
  match ReadType reg stream with
  | (.error e, rest) => (.error e, node, rest, arena)
  | (.ok pType, rest) =>
    let r := node.SetUserData w (.type pType) arena
    (.ok (), r.1, rest, r.2)

/-- `NodeUserData_Type::ToString`: appends the target type name when it is
non-empty. -/
def ToString (nodeDesc : ezVisualScriptNodeDescription)
    (out_sResult : String) : String :=
  if nodeDesc.m_sTargetTypeName.isEmpty = false then
    out_sResult ++ nodeDesc.m_sTargetTypeName
  else
    out_sResult

end NodeUserData_Type

namespace NodeUserData_TypeAndProperty

/-- `NodeUserData_TypeAndProperty::Serialize`: delegates to
`NodeUserData_Type::Serialize`, then writes `m_sTargetPropertyName` and
overwrites the reported size/alignment with its own. -/
def Serialize (w : Nat) (nodeDesc : ezVisualScriptNodeDescription)
    (stream : ezStream) : ezResult × ezStream × Nat × Nat :=
  match NodeUserData_Type.Serialize w nodeDesc stream with
  | (.EZ_FAILURE, stream, sz, al) => (.EZ_FAILURE, stream, sz, al)
  | (.EZ_SUCCESS, stream, _, _) =>
    (.EZ_SUCCESS, stream ++ [.str nodeDesc.m_sTargetPropertyName],
     sizeofNodeUserData_TypeAndProperty w, alignofNodeUserData_TypeAndProperty w)

/-- `NodeUserData_TypeAndProperty::ReadProperty`: reads the member name and
scans `properties` in order, selecting the first member whose
`GetPropertyName` equals it; on failure logs
`"{Function|Property} '{}' not found on type '{}'"`.  The parameter
`isFunction` stands for `std::is_same<T, ezAbstractFunctionProperty>::value`
at the instantiation, supplied by the caller because `T` itself is not
represented here. -/
def ReadProperty (stream : ezStream) (pType : ezRTTI)
    (properties : List ezAbstractProperty) (isFunction : Bool) :
    Except DeserializeError ezAbstractProperty × ezStream :=
  let r := readString stream
  match properties.find? (fun pProp => r.1 = pProp.name) with
  | none => (.error (.UnresolvedMember isFunction r.1 pType.typeName), r.2)
  | some pProp => (.ok pProp, r.2)

/-- `NodeUserData_TypeAndProperty::Deserialize<PropIsFunction>`: reads and
resolves the type, then the member against the type's function list (when
`PropIsFunction`) or property list, then places the resolved record.  At both
call sites `ReadProperty`'s `T` is deduced from the array argument as the
pointer element type (`GetFunctions()` yields `ezArrayPtr<ezAbstractFunctionProperty*>`,
`GetProperties()` yields `ezArrayPtr<const ezAbstractProperty*>`), so
`std::is_same<T, ezAbstractFunctionProperty>::value` is `false` in both
branches. -/
def Deserialize (PropIsFunction : Bool) (w : Nat) (reg : TypeRegistry)
    (node : Node) (stream : ezStream) (arena : Arena) :
    Except DeserializeError Unit × Node × ezStream × Arena :=
  match NodeUserData_Type.ReadType reg stream with
  | (.error e, rest) => (.error e, node, rest, arena)
  | (.ok pType, rest) =>
    match ReadProperty rest pType
        (if PropIsFunction then pType.functions else pType.properties)
        false with
    | (.error e, rest) => (.error e, node, rest, arena)
    | (.ok pProp, rest) =>
      let r := node.SetUserData w (.typeAndProperty pType pProp) arena
      (.ok (), r.1, rest, r.2)

/-- `NodeUserData_TypeAndProperty::ToString`: the base `ToString`, then
`".<propertyName>"` when the property name is non-empty. -/
def ToString (nodeDesc : ezVisualScriptNodeDescription)
    (out_sResult : String) : String :=
  let out_sResult := NodeUserData_Type.ToString nodeDesc out_sResult
  if nodeDesc.m_sTargetPropertyName.isEmpty = false then
    out_sResult ++ "." ++ nodeDesc.m_sTargetPropertyName
  else
    out_sResult

end NodeUserData_TypeAndProperty

namespace NodeUserData_Comparison

/-- `NodeUserData_Comparison::Serialize`: writes the comparison-operator
scalar and reports its record layout. -/
def Serialize (nodeDesc : ezVisualScriptNodeDescription)
    (stream : ezStream) : ezResult × ezStream × Nat × Nat :=
  (.EZ_SUCCESS, stream ++ [.scalar nodeDesc.m_ComparisonOperator],
   sizeofNodeUserData_Comparison, alignofNodeUserData_Comparison)

/-- `NodeUserData_Comparison::Deserialize`: reads the operator scalar verbatim
(no validation) and places the record; always returns `EZ_SUCCESS`. -/
def Deserialize (w : Nat) (node : Node) (stream : ezStream) (arena : Arena) :
    Except DeserializeError Unit × Node × ezStream × Arena :=
  let r := readScalar stream
  let s := node.SetUserData w (.comparison r.1) arena
  (.ok (), s.1, r.2, s.2)

/-- `NodeUserData_Comparison::ToString`: appends a space and the operator's
display name.  `ezReflectionUtils::EnumerationToString<ezComparisonOperator>`
is an external collaborator (not under src/); it is taken as the parameter
`enumerationToString`. -/
def ToString (enumerationToString : Nat → String)
    (nodeDesc : ezVisualScriptNodeDescription) (out_sResult : String) : String :=
  let sCompOp := enumerationToString nodeDesc.m_ComparisonOperator
  out_sResult ++ " " ++ sCompOp

end NodeUserData_Comparison

namespace NodeUserData_StartCoroutine

/-- `NodeUserData_StartCoroutine::Serialize`: delegates to
`NodeUserData_Type::Serialize`, then writes `m_CoroutineCreationMode` and
overwrites the reported size/alignment with its own. -/
def Serialize (w : Nat) (nodeDesc : ezVisualScriptNodeDescription)
    (stream : ezStream) : ezResult × ezStream × Nat × Nat :=
  match NodeUserData_Type.Serialize w nodeDesc stream with
  | (.EZ_FAILURE, stream, sz, al) => (.EZ_FAILURE, stream, sz, al)
  | (.EZ_SUCCESS, stream, _, _) =>
    (.EZ_SUCCESS, stream ++ [.scalar nodeDesc.m_CoroutineCreationMode],
     sizeofNodeUserData_StartCoroutine w, alignofNodeUserData_StartCoroutine w)

/-- `NodeUserData_StartCoroutine::Deserialize`: reads and resolves the type,
reads the creation-mode scalar verbatim (no validation), and places the
resolved record. -/
def Deserialize (w : Nat) (reg : TypeRegistry) (node : Node)
    (stream : ezStream) (arena : Arena) :
    Except DeserializeError Unit × Node × ezStream × Arena :=
  match NodeUserData_Type.ReadType reg stream with
  | (.error e, rest) => (.error e, node, rest, arena)
  | (.ok pType, rest) =>
    let r := readScalar rest
    let s := node.SetUserData w (.startCoroutine pType r.1) arena
    (.ok (), s.1, r.2, s.2)

/-- `NodeUserData_StartCoroutine::ToString`: the base `ToString`, then a space
and the creation mode's display name
(`ezReflectionUtils::EnumerationToString<ezScriptCoroutineCreationMode>` is
external, taken as the parameter `enumerationToString`). -/
def ToString (enumerationToString : Nat → String)
    (nodeDesc : ezVisualScriptNodeDescription) (out_sResult : String) : String :=
  let out_sResult := NodeUserData_Type.ToString nodeDesc out_sResult
  let sCreationMode := enumerationToString nodeDesc.m_CoroutineCreationMode
  out_sResult ++ " " ++ sCreationMode

end NodeUserData_StartCoroutine

/-! ## Dispatch table -/

/-- The signature of a dispatch-table serialize entry
(`using SerializeFunction = ezResult (*)(...)`). -/
abbrev SerializeFunction :=
  Nat → ezVisualScriptNodeDescription → ezStream → ezResult × ezStream × Nat × Nat

/-- The signature of a dispatch-table deserialize entry
(`using DeserializeFunction = ezResult (*)(...)`). -/
abbrev DeserializeFunction :=
  Nat → TypeRegistry → Node → ezStream → Arena →
    Except DeserializeError Unit × Node × ezStream × Arena

/-- The signature of a dispatch-table to-string entry
(`using ToStringFunction = void (*)(...)`); `ezReflectionUtils`' enumeration
display is threaded as the first parameter. -/
abbrev ToStringFunction :=
  (Nat → String) → ezVisualScriptNodeDescription → String → String

/-- `UserDataContext`: a dispatch-table entry — the triple of function
pointers, each defaulted to `nullptr` (`none`). -/
structure UserDataContext where
  m_SerializeFunc : Option SerializeFunction := none
  m_DeserializeFunc : Option DeserializeFunction := none
  m_ToStringFunc : Option ToStringFunction := none

/-- The dispatch-table entry for the `NodeUserData_TypeAndProperty` variant
resolving against the function list (`Deserialize<true>`). -/
def ctxTypeAndProperty_Function : UserDataContext :=
  { m_SerializeFunc := some NodeUserData_TypeAndProperty.Serialize,
    m_DeserializeFunc := some (NodeUserData_TypeAndProperty.Deserialize true),
    m_ToStringFunc := some (fun _ => NodeUserData_TypeAndProperty.ToString) }

/-- The dispatch-table entry for the `NodeUserData_Comparison` variant. -/
def ctxComparison : UserDataContext :=
  { m_SerializeFunc := some (fun _ => NodeUserData_Comparison.Serialize),
    m_DeserializeFunc := some (fun w _ => NodeUserData_Comparison.Deserialize w),
    m_ToStringFunc := some NodeUserData_Comparison.ToString }

/-- The dispatch-table entry for the `NodeUserData_Type` variant. -/
def ctxType : UserDataContext :=
  { m_SerializeFunc := some NodeUserData_Type.Serialize,
    m_DeserializeFunc := some NodeUserData_Type.Deserialize,
    m_ToStringFunc := some (fun _ => NodeUserData_Type.ToString) }

/-- The dispatch-table entry for the `NodeUserData_StartCoroutine` variant. -/
def ctxStartCoroutine : UserDataContext :=
  { m_SerializeFunc := some NodeUserData_StartCoroutine.Serialize,
    m_DeserializeFunc := some NodeUserData_StartCoroutine.Deserialize,
    m_ToStringFunc := some NodeUserData_StartCoroutine.ToString }

/-- `s_TypeToUserDataContexts`: the dispatch table, one entry per node type
tag in declaration order, entries copied from the source's initializer list
(empty braces are the all-`nullptr` context). -/
def s_TypeToUserDataContexts : List UserDataContext :=
  [{}, -- Invalid,
   {}, -- EntryCall,
   {}, -- EntryCall_Coroutine,
   {}, -- MessageHandler,
   {}, -- MessageHandler_Coroutine,
   ctxTypeAndProperty_Function, -- ReflectedFunction,
   ctxTypeAndProperty_Function, -- InplaceCoroutine,
   {}, -- GetOwner,
   {}, -- FirstBuiltin,
   {}, -- Builtin_Branch,
   {}, -- Builtin_And,
   {}, -- Builtin_Or,
   {}, -- Builtin_Not,
   ctxComparison, -- Builtin_Compare,
   {}, -- Builtin_IsValid,
   {}, -- Builtin_Add,
   {}, -- Builtin_Subtract,
   {}, -- Builtin_Multiply,
   {}, -- Builtin_Divide,
   {}, -- Builtin_ToBool,
   {}, -- Builtin_ToByte,
   {}, -- Builtin_ToInt,
   {}, -- Builtin_ToInt64,
   {}, -- Builtin_ToFloat,
   {}, -- Builtin_ToDouble,
   {}, -- Builtin_ToString,
   {}, -- Builtin_ToVariant,
   {}, -- Builtin_Variant_ConvertTo,
   {}, -- Builtin_MakeArray
   ctxType, -- Builtin_TryGetComponentOfBaseType
   ctxStartCoroutine, -- Builtin_StartCoroutine,
   {}, -- Builtin_StopCoroutine,
   {}, -- Builtin_StopAllCoroutines,
   {}, -- Builtin_WaitForAll,
   {}, -- Builtin_WaitForAny,
   {}, -- Builtin_Yield,
   {}] -- LastBuiltin,

/-- `GetUserDataContext`: O(1) lookup of the dispatch entry for a node type
tag (the debug assert `nodeType >= 0 && nodeType < EZ_ARRAY_SIZE(...)` holds
by construction for every declared tag). -/
def GetUserDataContext (nodeType : NodeType) : UserDataContext :=
  s_TypeToUserDataContexts.getD nodeType.toIdx {}

/-! ## Dispatch-level operations

Modelled from the spec: the Load/Save Orchestrator (in `VisualScript.cpp`,
not under src/) invokes the dispatch entry selected by the node's type tag;
per spec §4.1 and §6, a tag whose entry carries no function behaves as a
no-op — serialize writes zero stream bytes and reports a zero-size,
trivially-aligned record, deserialize succeeds without touching the arena,
and describe appends nothing. -/

/-- `serialize(tag, authoringRecord, stream)` at the dispatch level. -/
def dispatchSerialize (tag : NodeType) (w : Nat)
    (nodeDesc : ezVisualScriptNodeDescription) (stream : ezStream) :
    ezResult × ezStream × Nat × Nat :=
  match (GetUserDataContext tag).m_SerializeFunc with
  | none => (.EZ_SUCCESS, stream, 0, 1)
  | some f => f w nodeDesc stream

/-- `deserialize(tag, stream, arena)` at the dispatch level. -/
def dispatchDeserialize (tag : NodeType) (w : Nat) (reg : TypeRegistry)
    (node : Node) (stream : ezStream) (arena : Arena) :
    Except DeserializeError Unit × Node × ezStream × Arena :=
  match (GetUserDataContext tag).m_DeserializeFunc with
  | none => (.ok (), node, stream, arena)
  | some f => f w reg node stream arena

/-- `describe(tag, authoringRecord)` at the dispatch level. -/
def dispatchToString (tag : NodeType) (enumerationToString : Nat → String)
    (nodeDesc : ezVisualScriptNodeDescription) (out_sResult : String) : String :=
  match (GetUserDataContext tag).m_ToStringFunc with
  | none => out_sResult
  | some f => f enumerationToString nodeDesc out_sResult

/-! ## Theorems -/

/-- **C9**: every variant's serialize always succeeds for every authoring
record: its only effect is appending the variant's fields, in fixed order, to
the stream — no write can fail, so there is no partial-write-then-fail path;
only resolution on the deserialize side can fail. -/
theorem serialize_infallible (w : Nat) (nodeDesc : ezVisualScriptNodeDescription)
    (stream : ezStream) :
    NodeUserData_Type.Serialize w nodeDesc stream
      = (.EZ_SUCCESS, stream ++ [.str nodeDesc.m_sTargetTypeName],
         sizeofNodeUserData_Type w, alignofNodeUserData_Type w) ∧
    NodeUserData_TypeAndProperty.Serialize w nodeDesc stream
      = (.EZ_SUCCESS, stream ++ [.str nodeDesc.m_sTargetTypeName, .str nodeDesc.m_sTargetPropertyName],
         sizeofNodeUserData_TypeAndProperty w, alignofNodeUserData_TypeAndProperty w) ∧
    NodeUserData_Comparison.Serialize nodeDesc stream
      = (.EZ_SUCCESS, stream ++ [.scalar nodeDesc.m_ComparisonOperator],
         sizeofNodeUserData_Comparison, alignofNodeUserData_Comparison) ∧
    NodeUserData_StartCoroutine.Serialize w nodeDesc stream
      = (.EZ_SUCCESS, stream ++ [.str nodeDesc.m_sTargetTypeName, .scalar nodeDesc.m_CoroutineCreationMode],
         sizeofNodeUserData_StartCoroutine w, alignofNodeUserData_StartCoroutine w) := by
  refine ⟨rfl, ?_, rfl, ?_⟩ <;>
    simp [NodeUserData_TypeAndProperty.Serialize, NodeUserData_StartCoroutine.Serialize,
      NodeUserData_Type.Serialize]

/-- **C7**: composite variants delegate their shared prefix to the base
variant's serialize, so stream layouts are additive: the TypeAndProperty
stream is the Type stream followed by the property/function name, and the
StartCoroutine stream is the Type stream followed by the creation-mode
scalar. -/
theorem serialize_streams_additive (w : Nat)
    (nodeDesc : ezVisualScriptNodeDescription) (stream : ezStream) :
    (NodeUserData_TypeAndProperty.Serialize w nodeDesc stream).2.1
      = (NodeUserData_Type.Serialize w nodeDesc stream).2.1
          ++ [.str nodeDesc.m_sTargetPropertyName] ∧
    (NodeUserData_StartCoroutine.Serialize w nodeDesc stream).2.1
      = (NodeUserData_Type.Serialize w nodeDesc stream).2.1
          ++ [.scalar nodeDesc.m_CoroutineCreationMode] := by
  constructor <;> rfl

/-- **C6**: each variant's serialize reports the in-memory size and alignment
of the resolved variant record (computed by the C layout rules from the
source's field lists, not the serialized byte count), and for the
handle-embedding variants this size is 8 (Type), 16 (TypeAndProperty) and 16
(StartCoroutine) bytes at both native pointer widths (4 and 8). -/
theorem serialize_reports_record_layout :
    (∀ (w : Nat) (nodeDesc : ezVisualScriptNodeDescription) (stream : ezStream),
      (NodeUserData_Type.Serialize w nodeDesc stream).2.2
        = (sizeofNodeUserData_Type w, alignofNodeUserData_Type w) ∧
      (NodeUserData_TypeAndProperty.Serialize w nodeDesc stream).2.2
        = (sizeofNodeUserData_TypeAndProperty w, alignofNodeUserData_TypeAndProperty w) ∧
      (NodeUserData_Comparison.Serialize nodeDesc stream).2.2
        = (sizeofNodeUserData_Comparison, alignofNodeUserData_Comparison) ∧
      (NodeUserData_StartCoroutine.Serialize w nodeDesc stream).2.2
        = (sizeofNodeUserData_StartCoroutine w, alignofNodeUserData_StartCoroutine w)) ∧
    (sizeofNodeUserData_Type 4 = 8 ∧ sizeofNodeUserData_Type 8 = 8) ∧
    (sizeofNodeUserData_TypeAndProperty 4 = 16 ∧ sizeofNodeUserData_TypeAndProperty 8 = 16) ∧
    (sizeofNodeUserData_StartCoroutine 4 = 16 ∧ sizeofNodeUserData_StartCoroutine 8 = 16) := by
  refine ⟨fun w nodeDesc stream => ⟨rfl, rfl, rfl, rfl⟩, ?_, ?_, ?_⟩ <;> exact ⟨by decide, by decide⟩

/-- **C8**: describe is pure and total: a TypeAndProperty record with type
`"Foo"` and property `"Bar"` yields `"Foo.Bar"`; a Comparison record yields
the operator's display name preceded by a space; StartCoroutine appends the
creation-mode display name after the type name; an empty (absent) type or
property name is simply omitted from the label. -/
theorem toString_labels :
    NodeUserData_TypeAndProperty.ToString
      { m_sTargetTypeName := "Foo", m_sTargetPropertyName := "Bar" } "" = "Foo.Bar" ∧
    (∀ (e : Nat → String) (nodeDesc : ezVisualScriptNodeDescription) (out : String),
      NodeUserData_Comparison.ToString e nodeDesc out
        = out ++ " " ++ e nodeDesc.m_ComparisonOperator) ∧
    (∀ (e : Nat → String) (nodeDesc : ezVisualScriptNodeDescription) (out : String),
      NodeUserData_StartCoroutine.ToString e nodeDesc out
        = NodeUserData_Type.ToString nodeDesc out ++ " " ++ e nodeDesc.m_CoroutineCreationMode) ∧
    (∀ (nodeDesc : ezVisualScriptNodeDescription) (out : String),
      NodeUserData_Type.ToString { nodeDesc with m_sTargetTypeName := "" } out = out) ∧
    (∀ (nodeDesc : ezVisualScriptNodeDescription) (out : String),
      NodeUserData_TypeAndProperty.ToString { nodeDesc with m_sTargetPropertyName := "" } out
        = NodeUserData_Type.ToString { nodeDesc with m_sTargetPropertyName := "" } out) := by
  refine ⟨rfl, fun e nodeDesc out => rfl, fun e nodeDesc out => rfl, ?_, ?_⟩ <;>
    intro nodeDesc out <;>
    simp [NodeUserData_Type.ToString, NodeUserData_TypeAndProperty.ToString] <;>
    exact fun h => absurd h (by decide)

/-- **C1**: round trip — for every payload variant kind and every authoring
description, serializing into an empty stream and deserializing that stream
against a registry in which the referenced names resolve yields a resolved
record whose fields (type handle, property/function handle, comparison
operator, creation mode) are the resolved equivalents of the description's
fields, consuming the stream in full and placing exactly that record. -/
theorem deserialize_serialize_roundtrip (w : Nat) (reg : TypeRegistry)
    (nodeDesc : ezVisualScriptNodeDescription) (node : Node) (arena : Arena)
    (t : ezRTTI) (ht : FindTypeByName reg nodeDesc.m_sTargetTypeName = some t) :
    NodeUserData_Type.Deserialize w reg node
        (NodeUserData_Type.Serialize w nodeDesc []).2.1 arena
      = (.ok (), (node.SetUserData w (.type t) arena).1, [],
         (node.SetUserData w (.type t) arena).2) ∧
    (∀ (f : Bool) (p : ezAbstractProperty),
      (if f then t.functions else t.properties).find?
          (fun q => nodeDesc.m_sTargetPropertyName = q.name) = some p →
      NodeUserData_TypeAndProperty.Deserialize f w reg node
          (NodeUserData_TypeAndProperty.Serialize w nodeDesc []).2.1 arena
        = (.ok (), (node.SetUserData w (.typeAndProperty t p) arena).1, [],
           (node.SetUserData w (.typeAndProperty t p) arena).2)) ∧
    NodeUserData_Comparison.Deserialize w node
        (NodeUserData_Comparison.Serialize nodeDesc []).2.1 arena
      = (.ok (), (node.SetUserData w (.comparison nodeDesc.m_ComparisonOperator) arena).1, [],
         (node.SetUserData w (.comparison nodeDesc.m_ComparisonOperator) arena).2) ∧
    NodeUserData_StartCoroutine.Deserialize w reg node
        (NodeUserData_StartCoroutine.Serialize w nodeDesc []).2.1 arena
      = (.ok (), (node.SetUserData w (.startCoroutine t nodeDesc.m_CoroutineCreationMode) arena).1, [],
         (node.SetUserData w (.startCoroutine t nodeDesc.m_CoroutineCreationMode) arena).2) := by
  refine ⟨?_, ?_, ?_, ?_⟩
  · simp [NodeUserData_Type.Serialize, NodeUserData_Type.Deserialize,
      NodeUserData_Type.ReadType, readString, ht]
  · intro f p hp
    simp [NodeUserData_TypeAndProperty.Serialize, NodeUserData_Type.Serialize,
      NodeUserData_TypeAndProperty.Deserialize, NodeUserData_Type.ReadType,
      NodeUserData_TypeAndProperty.ReadProperty, readString, ht, hp]
  · simp [NodeUserData_Comparison.Serialize, NodeUserData_Comparison.Deserialize, readScalar]
  · simp [NodeUserData_StartCoroutine.Serialize, NodeUserData_Type.Serialize,
      NodeUserData_StartCoroutine.Deserialize, NodeUserData_Type.ReadType,
      readString, readScalar, ht]

/-- **C2**: for every variant that reads a type name (Type, TypeAndProperty in
both property/function modes, StartCoroutine), when the type name read from
the stream is not registered, deserialize fails with the unresolved-type
error, leaves the node untouched and appends nothing to the arena (the cursor
passed in is returned unchanged). -/
theorem deserialize_unresolved_type (w : Nat) (reg : TypeRegistry) (node : Node)
    (stream : ezStream) (arena : Arena)
    (hn : FindTypeByName reg (readString stream).1 = none) :
    NodeUserData_Type.Deserialize w reg node stream arena
      = (.error (.UnresolvedType (readString stream).1), node, (readString stream).2, arena) ∧
    (∀ f : Bool, NodeUserData_TypeAndProperty.Deserialize f w reg node stream arena
      = (.error (.UnresolvedType (readString stream).1), node, (readString stream).2, arena)) ∧
    NodeUserData_StartCoroutine.Deserialize w reg node stream arena
      = (.error (.UnresolvedType (readString stream).1), node, (readString stream).2, arena) := by
  refine ⟨?_, fun f => ?_, ?_⟩ <;>
    simp [NodeUserData_Type.Deserialize, NodeUserData_TypeAndProperty.Deserialize,
      NodeUserData_StartCoroutine.Deserialize, NodeUserData_Type.ReadType, hn]

/-- **C10**: the Comparison variant's deserialize succeeds for every input
stream, storing the comparison-operator scalar verbatim with no validation;
likewise StartCoroutine (once its type name resolves) accepts any
creation-mode scalar verbatim. -/
theorem deserialize_scalars_unvalidated :
    (∀ (w : Nat) (node : Node) (stream : ezStream) (arena : Arena),
      NodeUserData_Comparison.Deserialize w node stream arena
        = (.ok (), (node.SetUserData w (.comparison (readScalar stream).1) arena).1,
           (readScalar stream).2,
           (node.SetUserData w (.comparison (readScalar stream).1) arena).2)) ∧
    (∀ (w : Nat) (reg : TypeRegistry) (node : Node) (stream : ezStream) (arena : Arena)
       (t : ezRTTI), FindTypeByName reg (readString stream).1 = some t →
      NodeUserData_StartCoroutine.Deserialize w reg node stream arena
        = (.ok (),
           (node.SetUserData w (.startCoroutine t (readScalar (readString stream).2).1) arena).1,
           (readScalar (readString stream).2).2,
           (node.SetUserData w (.startCoroutine t (readScalar (readString stream).2).1) arena).2)) := by
  constructor
  · intro w node stream arena
    simp [NodeUserData_Comparison.Deserialize]
  · intro w reg node stream arena t ht
    simp [NodeUserData_StartCoroutine.Deserialize, NodeUserData_Type.ReadType, ht]

/-- Helper: `List.find?` selects the first match in list order — on a list
split as `l₁ ++ p :: l₂` with no match in `l₁` and `p` matching, it returns
`p`. -/
theorem find?_first_exact_match {l₁ l₂ : List ezAbstractProperty}
    {p : ezAbstractProperty} {sName : String} (hp : sName = p.name)
    (h₁ : ∀ q ∈ l₁, sName ≠ q.name) :
    (l₁ ++ p :: l₂).find? (fun q => sName = q.name) = some p := by
  rw [List.find?_append, List.find?_eq_none.mpr ?_, List.find?_cons_of_pos _ (by simpa using hp)]
  · rfl
  · intro q hq
    simpa using h₁ q hq

/-- Member resolution behavior of the TypeAndProperty variant: the secondary
name is resolved against the resolved type's function list (when in function
mode) or property list by exact name match, selecting the first match in list
order; when no member name matches it fails with the unresolved-member error
and the arena is untouched.  The error's context flag is `false` ("Property")
in both modes, since `std::is_same<T, ezAbstractFunctionProperty>::value` is
`false` at every compiling instantiation of `ReadProperty`. -/
theorem member_resolution_first_match (f : Bool) (w : Nat) (reg : TypeRegistry)
    (node : Node) (stream : ezStream) (arena : Arena) (t : ezRTTI)
    (ht : FindTypeByName reg (readString stream).1 = some t) :
    ((∀ q ∈ (if f then t.functions else t.properties),
        (readString (readString stream).2).1 ≠ q.name) →
      NodeUserData_TypeAndProperty.Deserialize f w reg node stream arena
        = (.error (.UnresolvedMember false (readString (readString stream).2).1 t.typeName),
           node, (readString (readString stream).2).2, arena)) ∧
    (∀ (l₁ : List ezAbstractProperty) (p : ezAbstractProperty) (l₂ : List ezAbstractProperty),
      (if f then t.functions else t.properties) = l₁ ++ p :: l₂ →
      (readString (readString stream).2).1 = p.name →
      (∀ q ∈ l₁, (readString (readString stream).2).1 ≠ q.name) →
      NodeUserData_TypeAndProperty.Deserialize f w reg node stream arena
        = (.ok (), (node.SetUserData w (.typeAndProperty t p) arena).1,
           (readString (readString stream).2).2,
           (node.SetUserData w (.typeAndProperty t p) arena).2)) := by
  constructor
  · intro hnone
    have hfind : ((if f then t.functions else t.properties).find?
        (fun q => (readString (readString stream).2).1 = q.name)) = none := by
      refine List.find?_eq_none.mpr ?_
      intro q hq
      simpa using hnone q hq
    simp [NodeUserData_TypeAndProperty.Deserialize, NodeUserData_Type.ReadType,
      NodeUserData_TypeAndProperty.ReadProperty, ht, hfind]
  · intro l₁ p l₂ hsplit hp h₁
    have hfind : ((if f then t.functions else t.properties).find?
        (fun q => (readString (readString stream).2).1 = q.name)) = some p := by
      rw [hsplit]
      exact find?_first_exact_match hp h₁
    simp [NodeUserData_TypeAndProperty.Deserialize, NodeUserData_Type.ReadType,
      NodeUserData_TypeAndProperty.ReadProperty, ht, hfind]

/-- The variant intended for each node type tag, read off the source's
per-entry comments in `s_TypeToUserDataContexts`: TypeAndProperty in function
mode for ReflectedFunction and InplaceCoroutine, Comparison for
Builtin_Compare, Type for Builtin_TryGetComponentOfBaseType, StartCoroutine
for Builtin_StartCoroutine, and the all-null context for every other tag. -/
def expectedContext : NodeType → UserDataContext
  | .ReflectedFunction => ctxTypeAndProperty_Function
  | .InplaceCoroutine => ctxTypeAndProperty_Function
  | .Builtin_Compare => ctxComparison
  | .Builtin_TryGetComponentOfBaseType => ctxType
  | .Builtin_StartCoroutine => ctxStartCoroutine
  | _ => {}

/-- **C4**: the dispatch table has exactly one entry per declared node type
tag — its length equals the number of declared tags (the source's
`static_assert(EZ_ARRAY_SIZE(s_TypeToUserDataContexts) == Type::Count)`,
a build-time check), every tag's numeric value indexes inside the table, and
`GetUserDataContext` maps every tag to exactly the variant context the source
assigns to that tag (no tag maps to another tag's variant). -/
theorem dispatch_table_complete :
    s_TypeToUserDataContexts.length = NodeTypeCount ∧
    (∀ tag : NodeType, tag.toIdx < s_TypeToUserDataContexts.length) ∧
    (∀ tag : NodeType, GetUserDataContext tag = expectedContext tag) := by
  refine ⟨rfl, fun tag => ?_, fun tag => ?_⟩ <;> cases tag <;> first | decide | rfl

/-- **C5**: for every node type tag whose dispatch entry is the all-null
context (no payload variant), the dispatched operations are no-ops: serialize
writes zero stream items, reports a zero-size, trivially-aligned record and
succeeds; deserialize succeeds and leaves node, stream and arena untouched;
describe appends nothing. -/
theorem no_payload_tags_noop (tag : NodeType)
    (h : GetUserDataContext tag = ({} : UserDataContext)) (w : Nat)
    (reg : TypeRegistry) (nodeDesc : ezVisualScriptNodeDescription)
    (node : Node) (stream : ezStream) (arena : Arena)
    (e : Nat → String) (out : String) :
    dispatchSerialize tag w nodeDesc stream = (.EZ_SUCCESS, stream, 0, 1) ∧
    dispatchDeserialize tag w reg node stream arena = (.ok (), node, stream, arena) ∧
    dispatchToString tag e nodeDesc out = out := by
  unfold dispatchSerialize dispatchDeserialize dispatchToString
  rw [h]
  exact ⟨rfl, rfl, rfl⟩

/-! ## Concrete witnesses -/

/-- A sample registered property named `"Bar"`. -/
def sampleProperty : ezAbstractProperty := { name := "Bar" }

/-- A sample registered function named `"Baz"`. -/
def sampleFunction : ezAbstractProperty := { name := "Baz" }

/-- A sample registered type `"Foo"` with property `"Bar"` and function
`"Baz"`. -/
def fooRTTI : ezRTTI :=
  { typeName := "Foo", properties := [sampleProperty], functions := [sampleFunction] }

/-- A sample registry containing only `fooRTTI`. -/
def sampleRegistry : TypeRegistry := [fooRTTI]

/-- A sample authoring node description referencing type `"Foo"` and property
`"Bar"`. -/
def fooDesc : ezVisualScriptNodeDescription :=
  { m_Type := .Builtin_StartCoroutine, m_sTargetTypeName := "Foo",
    m_sTargetPropertyName := "Bar", m_ComparisonOperator := 3,
    m_CoroutineCreationMode := 1 }

/-- Witness for the round-trip theorem at a concrete registry and
description: serializing the TypeAndProperty payload of `fooDesc` and
deserializing it back resolves to `fooRTTI` and its property `"Bar"`. -/
theorem deserialize_serialize_roundtrip_witness :
    NodeUserData_TypeAndProperty.Deserialize false 8 sampleRegistry ({} : Node)
        (NodeUserData_TypeAndProperty.Serialize 8 fooDesc []).2.1 ({} : Arena)
      = (.ok (), (Node.SetUserData {} 8 (.typeAndProperty fooRTTI sampleProperty) {}).1, [],
         (Node.SetUserData {} 8 (.typeAndProperty fooRTTI sampleProperty) {}).2) :=
  (deserialize_serialize_roundtrip 8 sampleRegistry fooDesc {} {} fooRTTI
    (by decide)).2.1 false sampleProperty (by decide)

/-- Witness for the unresolved-type theorem at the concrete stream whose type
name is `"Nonexistent"`. -/
theorem deserialize_unresolved_type_witness :
    NodeUserData_TypeAndProperty.Deserialize false 8 sampleRegistry ({} : Node)
        [.str "Nonexistent"] ({} : Arena)
      = (.error (.UnresolvedType "Nonexistent"), {}, [], {}) :=
  (deserialize_unresolved_type 8 sampleRegistry {} [.str "Nonexistent"] {}
    (by decide)).2.1 false

/-- **C3** (code bug): deserializing in function mode (`Deserialize<true>`,
used by the ReflectedFunction and InplaceCoroutine tags) with valid type
`"Foo"` but member name `"DoesNotExist"` fails with an unresolved-member
error whose context flag is `false` — the diagnostic reads
`"Property 'DoesNotExist' not found on type 'Foo'"` even though a function
was sought.  `std::is_same<T, ezAbstractFunctionProperty>::value` is `false`
at every compiling instantiation of `ReadProperty` (`T` is deduced as the
pointer element type of the passed array), so the error never records
function context, contrary to the evident intent of the source's ternary. -/
theorem deserialize_member_error_property_context :
    NodeUserData_TypeAndProperty.Deserialize true 8 sampleRegistry ({} : Node)
        [.str "Foo", .str "DoesNotExist"] ({} : Arena)
      = (.error (.UnresolvedMember false "DoesNotExist" "Foo"), {}, [], {}) := by
  rfl

/-- Witness for the no-payload no-op theorem at the concrete tag `Invalid`. -/
theorem no_payload_tags_noop_witness :
    dispatchSerialize .Invalid 8 fooDesc [] = (.EZ_SUCCESS, [], 0, 1) ∧
    dispatchDeserialize .Invalid 8 sampleRegistry ({} : Node) [] ({} : Arena)
      = (.ok (), {}, [], {}) ∧
    dispatchToString .Invalid (fun _ => "") fooDesc "Label" = "Label" :=
  no_payload_tags_noop .Invalid rfl 8 sampleRegistry fooDesc {} [] {} (fun _ => "") "Label"

/-- Witness for the unvalidated-scalar theorem: the creation-mode scalar 999
(no declared enumerant) is accepted and stored verbatim. -/
theorem deserialize_scalars_unvalidated_witness :
    NodeUserData_StartCoroutine.Deserialize 8 sampleRegistry ({} : Node)
        [.str "Foo", .scalar 999] ({} : Arena)
      = (.ok (), (Node.SetUserData {} 8 (.startCoroutine fooRTTI 999) {}).1, [],
         (Node.SetUserData {} 8 (.startCoroutine fooRTTI 999) {}).2) :=
  deserialize_scalars_unvalidated.2 8 sampleRegistry {} [.str "Foo", .scalar 999] {}
    fooRTTI (by decide)
